import Mathlib

/-!
Verification of `jules-scratch/verification/verify_animation_styles.py`,
a linear Playwright browser-automation script.  The script is embedded as a
trace-emitting sequential program: each automation call it issues becomes an
`Event` carrying exactly the arguments of the call site, and an `Env` of
Booleans records, for each fallible framework call, whether the external
framework satisfies it.  `run` mirrors the body of the Python function `run`,
`mainRun` mirrors the module toplevel `with sync_playwright() as p: run(p)`.
-/

/-- Error classes of the automation framework, as named by the error-handling
design: `NavigationError` (target unreachable), `TimeoutError` (expected
element/state did not appear in time), `InteractionError` (element not
actionable).  `OtherError` covers failures outside that taxonomy (for example
screenshot I/O). -/
inductive AutoError where
  | NavigationError
  | TimeoutError
  | InteractionError
  | OtherError
deriving DecidableEq

/-- One automation call issued by the script, with the arguments of its call
site. -/
inductive Event where
  /-- `playwright.chromium.launch(headless=True)`; the field records the
  browser type and the headless flag. -/
  | launch (browserType : String) (headless : Bool)
  /-- `browser.new_page()` -/
  | newPage
  /-- `page.goto(url)` -/
  | goto (url : String)
  /-- `page.wait_for_selector(selector)` or
  `page.wait_for_selector(selector, state=...)`; `state` is `none` when the
  call site passes no `state` argument. -/
  | waitForSelector (selector : String) (state : Option String)
  /-- `page.locator(selector).fill(value)` -/
  | fill (selector : String) (value : String)
  /-- `page.get_by_role(role, name=name).click()` -/
  | clickByRole (role : String) (name : String)
  /-- `page.wait_for_timeout(ms)` -/
  | waitForTimeout (ms : Nat)
  /-- `page.screenshot(path=path)`.  The `fullPage` field records the
  effective value of the screenshot's `full_page` option: the call site in the
  source passes only `path`, and the framework's documented default for the
  omitted `full_page` option is `False` (viewport-only screenshot). -/
  | screenshot (path : String) (fullPage : Bool)
  /-- `browser.close()` -/
  | browserClose
  /-- Exit of the `with sync_playwright()` context manager: stops the
  Playwright driver, which closes any browser it launched — per the spec, the
  scoped browser session is released here on every exit path. -/
  | playwrightStop
deriving DecidableEq

/-- Outcome, per fallible framework call, of that call in a given run: `true`
when the external world satisfies it (server answering, element appearing in
time, element actionable, disk writable). -/
structure Env where
  gotoOk : Bool
  waitH1Ok : Bool
  waitVisibleOk : Bool
  waitEnabledOk : Bool
  fillOk : Bool
  clickOk : Bool
  screenshotOk : Bool
deriving DecidableEq

/-- `page.goto("http://localhost:5173")`, line 7 of the source. -/
def targetUrl : String := "http://localhost:5173"

/-- `input_selector = '[name="title"]'`, line 13 of the source. -/
def inputSelector : String := "[name=\"title\"]"

/-- The literal filled into the input field, line 20 of the source. -/
def fillText : String := "New Todo Item"

/-- The settle delay in milliseconds, line 24 of the source. -/
def settleMs : Nat := 1000

/-- The screenshot output path, line 25 of the source. -/
def screenshotPath : String := "jules-scratch/verification/verification.png"

/-- Effective `full_page` option of the screenshot call: the call site omits
it, and the framework's documented default is `False`. -/
def fullPageEffective : Bool := false

/-- Embedding of `def run(playwright)` from the source.  Returns the ordered
trace of automation calls issued and the outcome.  Each fallible call either
succeeds (its `Env` flag is `true`) or raises the error class the design
assigns to it — navigation raises `NavigationError`, the element waits raise
`TimeoutError`, fill/click raise `InteractionError` — and the source has no
`try`/`except`, so the first failure skips the rest of the body and
propagates. -/
def run (env : Env) : List Event × Except AutoError Unit :=
  let t1 := [Event.launch "chromium" true, Event.newPage, Event.goto targetUrl]
  if !env.gotoOk then (t1, .error .NavigationError) else
  let t2 := t1 ++ [Event.waitForSelector "h1" none]
  if !env.waitH1Ok then (t2, .error .TimeoutError) else
  let t3 := t2 ++ [Event.waitForSelector inputSelector (some "visible")]
  if !env.waitVisibleOk then (t3, .error .TimeoutError) else
  let t4 := t3 ++ [Event.waitForSelector inputSelector (some "enabled")]
  if !env.waitEnabledOk then (t4, .error .TimeoutError) else
  let t5 := t4 ++ [Event.fill inputSelector fillText]
  if !env.fillOk then (t5, .error .InteractionError) else
  let t6 := t5 ++ [Event.clickByRole "button" "Add"]
  if !env.clickOk then (t6, .error .InteractionError) else
  let t7 := t6 ++ [Event.waitForTimeout settleMs]
  let t8 := t7 ++ [Event.screenshot screenshotPath fullPageEffective]
  if !env.screenshotOk then (t8, .error .OtherError) else
  (t8 ++ [Event.browserClose], .ok ())

/-- Embedding of the module toplevel
`with sync_playwright() as playwright: run(playwright)`.  The context
manager's exit runs on every path out of the block, success or exception, and
stops the Playwright driver, releasing the scoped browser session; an error
raised inside the block still propagates afterwards. -/
def mainRun (env : Env) : List Event × Except AutoError Unit :=
  let r := run env
  (r.1 ++ [Event.playwrightStop], r.2)

/-- `true` when the trace contains a step that releases the browser resource:
either the explicit `browser.close()` or the scoped-session exit (stopping the
driver closes any browser it launched). -/
def releasesBrowser (tr : List Event) : Bool :=
  tr.any fun e =>
    match e with
    | .browserClose => true
    | .playwrightStop => true
    | _ => false

/-- The paths written by the screenshot calls of a trace, in order. -/
def screenshotWrites (tr : List Event) : List String :=
  tr.filterMap fun e =>
    match e with
    | .screenshot p _ => some p
    | _ => none

/-- The launch events of a trace. -/
def launches (tr : List Event) : List Event :=
  tr.filter fun e =>
    match e with
    | .launch _ _ => true
    | _ => false

/-- The new-page events of a trace. -/
def newPages (tr : List Event) : List Event :=
  tr.filter fun e =>
    match e with
    | .newPage => true
    | _ => false

/-- State of the output file after a run, modelling each screenshot call as an
unconditional overwrite: `prior` is the file content (if any) before the run,
`stamp` identifies what this run would write, and the result is the content
after the run replays its trace. -/
def fileAfterRun (prior : Option Nat) (stamp : Nat) (tr : List Event) :
    Option Nat :=
  tr.foldl
    (fun f e =>
      match e with
      | Event.screenshot _ _ => some stamp
      | _ => f)
    prior

/-- `true` when every fallible step of the run succeeds. -/
def Env.allOk (e : Env) : Bool :=
  e.gotoOk && e.waitH1Ok && e.waitVisibleOk && e.waitEnabledOk &&
    e.fillOk && e.clickOk && e.screenshotOk

/-- The environment in which every step succeeds. -/
def envAllOk : Env := ⟨true, true, true, true, true, true, true⟩

/-- An environment in which the server is not listening: navigation fails. -/
def envNoServer : Env := ⟨false, true, true, true, true, true, true⟩

/-- An environment in which the enabled-state wait on the input field times
out. -/
def envWaitEnabledFails : Env := ⟨true, true, true, false, true, true, true⟩

deriving instance DecidableEq for Except

/-- The navigation events of a trace. -/
def gotos (tr : List Event) : List Event :=
  tr.filter fun e =>
    match e with
    | .goto _ => true
    | _ => false

/-- The durations, in milliseconds, of the fixed-delay calls of a trace. -/
def delays (tr : List Event) : List Nat :=
  tr.filterMap fun e =>
    match e with
    | .waitForTimeout ms => some ms
    | _ => none

/-- An environment whose every flag is `true` is `envAllOk`. -/
theorem Env.eq_envAllOk_of_allOk (e : Env) (h : e.allOk = true) :
    e = envAllOk := by
  obtain ⟨a, b, c, d, f, g, s⟩ := e
  cases a <;> cases b <;> cases c <;> cases d <;> cases f <;> cases g <;>
    cases s <;> first | rfl | simp [Env.allOk] at h

/-- C1: On every exit path of a run — including runs that fail at navigation,
either element wait, fill, click, the delay, or the screenshot — the trace
contains a browser-release step, and the scoped-session release is the final
action before the process ends.  (On failure paths `browser.close()` is
skipped; the release is the exit of the `with sync_playwright()` block.) -/
theorem C1_browser_released_on_all_paths (env : Env) :
    releasesBrowser (mainRun env).1 = true ∧
    (mainRun env).1.getLast? = some Event.playwrightStop := by
  obtain ⟨g, h, v, e, f, c, s⟩ := env
  cases g <;> cases h <;> cases v <;> cases e <;> cases f <;> cases c <;>
    cases s <;> decide

/-- C2: In every run that fills the input field, the waits for the named
input field to be visible and to be enabled were both issued, strictly before
the fill; and a run in which either of those waits is the failing step (the
earlier steps having succeeded) ends with a `TimeoutError` and never fills
the field. -/
theorem C2_input_waits_before_fill (env : Env) :
    (Event.fill inputSelector fillText ∈ (run env).1 →
      Event.waitForSelector inputSelector (some "visible") ∈ (run env).1 ∧
      Event.waitForSelector inputSelector (some "enabled") ∈ (run env).1 ∧
      (run env).1.indexOf (Event.waitForSelector inputSelector (some "visible")) <
        (run env).1.indexOf (Event.fill inputSelector fillText) ∧
      (run env).1.indexOf (Event.waitForSelector inputSelector (some "enabled")) <
        (run env).1.indexOf (Event.fill inputSelector fillText)) ∧
    (env.gotoOk = true → env.waitH1Ok = true →
      (env.waitVisibleOk = false ∨ env.waitEnabledOk = false) →
      (run env).2 = Except.error AutoError.TimeoutError ∧
      Event.fill inputSelector fillText ∉ (run env).1) := by
  obtain ⟨g, h, v, e, f, c, s⟩ := env
  cases g <;> cases h <;> cases v <;> cases e <;> cases f <;> cases c <;>
    cases s <;> decide

/-- Witness for C2 at concrete environments: in the fully successful run the
enabled-wait precedes the fill, and when the enabled-wait is the failing step
the run ends with a `TimeoutError`. -/
theorem C2_witness :
    ((run envAllOk).1.indexOf (Event.waitForSelector inputSelector (some "enabled")) <
      (run envAllOk).1.indexOf (Event.fill inputSelector fillText)) ∧
    (run envWaitEnabledFails).2 = Except.error AutoError.TimeoutError :=
  ⟨((C2_input_waits_before_fill envAllOk).1 (by decide)).2.2.2,
   ((C2_input_waits_before_fill envWaitEnabledFails).2 rfl rfl (Or.inr rfl)).1⟩

/-- C3 counterexample: the claim calls the capture a full-page screenshot, but
the source's call passes only `path`, and the framework default for the
omitted `full_page` option is off: the fully successful run's trace contains
the viewport screenshot of the fixed path and no full-page screenshot. -/
theorem C3_counterexample :
    Event.screenshot screenshotPath true ∉ (mainRun envAllOk).1 ∧
    Event.screenshot screenshotPath false ∈ (mainRun envAllOk).1 := by
  decide

/-- C3 (amended): on a successful run, the screenshot captured at the end is a
default viewport screenshot (not full-page) written to the one fixed output
path, overwriting any prior file at that path; the run writes that path
exactly once and writes no other path. -/
theorem C3_single_screenshot_overwrites (env : Env) (h : env.allOk = true)
    (prior : Option Nat) (stamp : Nat) :
    screenshotWrites (mainRun env).1 = [screenshotPath] ∧
    Event.screenshot screenshotPath fullPageEffective ∈ (mainRun env).1 ∧
    fullPageEffective = false ∧
    fileAfterRun prior stamp (mainRun env).1 = some stamp := by
  have he := Env.eq_envAllOk_of_allOk env h
  subst he
  exact ⟨rfl, by decide, rfl, rfl⟩

/-- Witness for C3 at the fully successful environment, with an arbitrary
prior file: the run writes the fixed path exactly once and the file afterwards
holds this run's write. -/
theorem C3_witness :
    screenshotWrites (mainRun envAllOk).1 = [screenshotPath] ∧
    fileAfterRun (some 7) 42 (mainRun envAllOk).1 = some 42 :=
  ⟨(C3_single_screenshot_overwrites envAllOk rfl (some 7) 42).1,
   (C3_single_screenshot_overwrites envAllOk rfl (some 7) 42).2.2.2⟩

/-- C4: a run in which navigation, the heading wait, either input-field wait,
the fill, or the click fails issues no screenshot call, does not end in
success, and leaves the output file exactly as it was before the run. -/
theorem C4_failure_leaves_no_screenshot (env : Env)
    (h : env.gotoOk = false ∨ env.waitH1Ok = false ∨ env.waitVisibleOk = false ∨
      env.waitEnabledOk = false ∨ env.fillOk = false ∨ env.clickOk = false)
    (prior : Option Nat) (stamp : Nat) :
    screenshotWrites (mainRun env).1 = [] ∧
    (mainRun env).2 ≠ Except.ok () ∧
    fileAfterRun prior stamp (mainRun env).1 = prior := by
  obtain ⟨g, w1, w2, w3, f, c, s⟩ := env
  cases g <;> cases w1 <;> cases w2 <;> cases w3 <;> cases f <;> cases c <;>
    cases s <;> first | exact ⟨rfl, by decide, rfl⟩ | simp at h

/-- Witness for C4 with the server down and an arbitrary prior file: no
screenshot call is issued and the file is unchanged. -/
theorem C4_witness :
    screenshotWrites (mainRun envNoServer).1 = [] ∧
    fileAfterRun (some 7) 42 (mainRun envNoServer).1 = some 7 :=
  ⟨(C4_failure_leaves_no_screenshot envNoServer (Or.inl rfl) (some 7) 42).1,
   (C4_failure_leaves_no_screenshot envNoServer (Or.inl rfl) (some 7) 42).2.2⟩

/-- C5: in every run whose trace contains the screenshot call, the fixed
real-time delay call was issued and — execution being single-threaded and
blocking, so trace order is completion order — had fully elapsed strictly
before the screenshot was taken. -/
theorem C5_delay_elapses_before_screenshot (env : Env) :
    Event.screenshot screenshotPath fullPageEffective ∈ (mainRun env).1 →
    Event.waitForTimeout settleMs ∈ (mainRun env).1 ∧
    (mainRun env).1.indexOf (Event.waitForTimeout settleMs) <
      (mainRun env).1.indexOf (Event.screenshot screenshotPath fullPageEffective) := by
  obtain ⟨g, h, v, e, f, c, s⟩ := env
  cases g <;> cases h <;> cases v <;> cases e <;> cases f <;> cases c <;>
    cases s <;> decide

/-- Witness for C5 at the fully successful environment. -/
theorem C5_witness :
    (mainRun envAllOk).1.indexOf (Event.waitForTimeout settleMs) <
      (mainRun envAllOk).1.indexOf
        (Event.screenshot screenshotPath fullPageEffective) :=
  (C5_delay_elapses_before_screenshot envAllOk (by decide)).2

/-- C6: every run issues exactly one navigation, to exactly
`http://localhost:5173`; and when the navigation is the step that fails (no
server listening) the run's outcome is the uncaught `NavigationError`. -/
theorem C6_fixed_navigation (env : Env) :
    gotos (mainRun env).1 = [Event.goto "http://localhost:5173"] ∧
    (env.gotoOk = false →
      (mainRun env).2 = Except.error AutoError.NavigationError) := by
  obtain ⟨g, h, v, e, f, c, s⟩ := env
  cases g <;> cases h <;> cases v <;> cases e <;> cases f <;> cases c <;>
    cases s <;> decide

/-- Witness for C6 with the server down: the outcome is `NavigationError`. -/
theorem C6_witness :
    (mainRun envNoServer).2 = Except.error AutoError.NavigationError :=
  (C6_fixed_navigation envNoServer).2 rfl

/-- C7: the delay calls of any run are either none (the run failed earlier)
or exactly one call of 1000 milliseconds; the run that reaches the delay
issues exactly that one-second call. -/
theorem C7_settle_delay_is_one_second (env : Env) :
    (delays (mainRun env).1 = [] ∨ delays (mainRun env).1 = [1000]) ∧
    (env.gotoOk = true → env.waitH1Ok = true → env.waitVisibleOk = true →
      env.waitEnabledOk = true → env.fillOk = true → env.clickOk = true →
      delays (mainRun env).1 = [1000]) := by
  obtain ⟨g, h, v, e, f, c, s⟩ := env
  cases g <;> cases h <;> cases v <;> cases e <;> cases f <;> cases c <;>
    cases s <;> decide

/-- Witness for C7 at the fully successful environment. -/
theorem C7_witness :
    delays (mainRun envAllOk).1 = [1000] :=
  (C7_settle_delay_is_one_second envAllOk).2 rfl rfl rfl rfl rfl rfl

/-- C8: the runner takes no inputs — every parameter is a hardcoded constant —
so any two runs in which the external world satisfies every step issue the
identical sequence of automation calls with identical arguments, namely the
fixed twelve-step sequence spelled out here. -/
theorem C8_identical_call_sequences (e1 e2 : Env)
    (h1 : e1.allOk = true) (h2 : e2.allOk = true) :
    mainRun e1 = mainRun e2 ∧
    (mainRun e1).1 =
      [Event.launch "chromium" true, Event.newPage,
       Event.goto "http://localhost:5173",
       Event.waitForSelector "h1" none,
       Event.waitForSelector "[name=\"title\"]" (some "visible"),
       Event.waitForSelector "[name=\"title\"]" (some "enabled"),
       Event.fill "[name=\"title\"]" "New Todo Item",
       Event.clickByRole "button" "Add",
       Event.waitForTimeout 1000,
       Event.screenshot "jules-scratch/verification/verification.png" false,
       Event.browserClose, Event.playwrightStop] := by
  have ha := Env.eq_envAllOk_of_allOk e1 h1
  have hb := Env.eq_envAllOk_of_allOk e2 h2
  subst ha
  subst hb
  exact ⟨rfl, rfl⟩

/-- Witness for C8 at the fully successful environment (twice). -/
theorem C8_witness :
    (mainRun envAllOk).1.length = 12 := by
  rw [(C8_identical_call_sequences envAllOk envAllOk rfl rfl).2]
  rfl

/-- C9: the concrete constants of the interaction: the input field is located
by the selector `[name="title"]` and filled with the literal `New Todo Item`,
the clicked control is the element of role `button` with accessible name
`Add`, and the screenshot path is the fixed relative path
`jules-scratch/verification/verification.png` (its first character is `j`,
not a path separator, so it resolves against the working directory). -/
theorem C9_interaction_constants :
    Event.fill "[name=\"title\"]" "New Todo Item" ∈ (mainRun envAllOk).1 ∧
    Event.clickByRole "button" "Add" ∈ (mainRun envAllOk).1 ∧
    screenshotWrites (mainRun envAllOk).1 =
      ["jules-scratch/verification/verification.png"] ∧
    screenshotPath.data.head? = some 'j' := by
  decide

/-- C10: every run launches exactly one browser — Chromium, headless — and
opens exactly one page; whenever navigation succeeds, the readiness wait for
the selector `h1` is issued. -/
theorem C10_one_chromium_one_page (env : Env) :
    launches (mainRun env).1 = [Event.launch "chromium" true] ∧
    newPages (mainRun env).1 = [Event.newPage] ∧
    (env.gotoOk = true → Event.waitForSelector "h1" none ∈ (mainRun env).1) := by
  obtain ⟨g, h, v, e, f, c, s⟩ := env
  cases g <;> cases h <;> cases v <;> cases e <;> cases f <;> cases c <;>
    cases s <;> decide

/-- Witness for C10 at the fully successful environment. -/
theorem C10_witness :
    launches (mainRun envAllOk).1 = [Event.launch "chromium" true] ∧
    Event.waitForSelector "h1" none ∈ (mainRun envAllOk).1 :=
  ⟨(C10_one_chromium_one_page envAllOk).1,
   (C10_one_chromium_one_page envAllOk).2.2 rfl⟩
